import Mathlib

/-!
Shallow embedding of the capture/inference orchestration core of
mossly/local-transcription-web (src/App.jsx and src/worker.js), together with
theorems settling the spec's claims about it.

Conventions of the embedding:
* strings stay `String`; audio sample buffers become `List Int` (the numeric
  value of a sample is never inspected by the orchestration code);
* the worker's module-level `processing` flag and its admission logic become an
  explicit event-step relation (`gStep`) on a gate state, plus a per-request
  function `generate` giving the messages one admitted request emits and the
  resulting flag value;
* `postMessage` traffic from worker to main thread becomes the `WMsg` type, and
  `App.jsx`'s `onMessageReceived` switch becomes a pure state-transition
  function on `AppState`;
* the tokens-per-second value (a JS float computed from wall-clock time) is
  carried opaquely as `Option Nat`; no claim inspects its numeric value.
-/

namespace LocalTranscription

/-! ## Text cleaning (App.jsx lines 115 and 130)

`e.data.output.replace(/\[BLANK_AUDIO\]/g, '').trim()` : every non-overlapping
occurrence of the literal marker `[BLANK_AUDIO]` is removed scanning left to
right, then surrounding whitespace is trimmed. -/

/-- The non-speech placeholder marker removed from engine output. -/
def blankMarker : List Char := "[BLANK_AUDIO]".toList

/-- Left-to-right non-overlapping removal of `blankMarker`, fuelled so the
definition is structural (fuel = length of the list is always enough, since
every step consumes at least one character). -/
def stripBlankAux : Nat → List Char → List Char
  | 0, l => l
  | _ + 1, [] => []
  | fuel + 1, c :: cs =>
    if blankMarker.isPrefixOf (c :: cs) then
      stripBlankAux fuel ((c :: cs).drop blankMarker.length)
    else
      c :: stripBlankAux fuel cs

/-- Removal of every `[BLANK_AUDIO]` occurrence, as JS
`replace(/\[BLANK_AUDIO\]/g, '')` does. -/
def stripBlank (l : List Char) : List Char := stripBlankAux l.length l

/-- Both-ends whitespace trim, as JS `String.prototype.trim`. -/
def trimChars (l : List Char) : List Char :=
  ((l.dropWhile Char.isWhitespace).reverse.dropWhile Char.isWhitespace).reverse

/-- The `cleanedOutput` computation of App.jsx lines 115 / 130: strip all
`[BLANK_AUDIO]` markers, then trim. -/
def cleanOutput (t : String) : String := String.mk (trimChars (stripBlank t.toList))

/-! ## Worker-to-main messages (the `self.postMessage` payloads of worker.js) -/

/-- Tagged messages the worker posts to the main thread.  Fields mirror the JS
payloads; `update` carries `output`, `tps`, `numTokens` (worker.js lines 80-87),
`complete` carries `output` and `isFinal` (lines 111-115), `error` carries the
human-readable `data` string (lines 148-151). -/
inductive WMsg where
  | loading (data : String)
  | initiate (file : String) (progress total : Nat)
  | progress (file : String) (progress total : Nat)
  | done (file : String)
  | ready
  | start
  | update (output : String) (tps : Option Nat) (numTokens : Nat)
  | complete (output : String) (isFinal : Bool)
  | error (data : String)
deriving DecidableEq

/-- One entry of App.jsx's `progressItems` list (fields used by the handler). -/
structure ProgressItem where
  file : String
  progress : Nat
  total : Nat
deriving DecidableEq

/-- The slice of App.jsx component state that `onMessageReceived` and the
recorder callbacks read or write. -/
structure AppState where
  status : Option String
  loadingMessage : String
  progressItems : List ProgressItem
  realtimeText : String
  finalTranscript : String
  tps : Option Nat
  isProcessing : Bool
  recording : Bool
  allowRealtimeProcessing : Bool
  processingFinalTranscript : Bool
deriving DecidableEq

/-- Initial `useState` values of App.jsx (lines 19-39). -/
def initialApp : AppState :=
  { status := none
    loadingMessage := ""
    progressItems := []
    realtimeText := ""
    finalTranscript := ""
    tps := none
    isProcessing := false
    recording := false
    allowRealtimeProcessing := true
    processingFinalTranscript := false }

/-- App.jsx `onMessageReceived` (lines 52-135), as a pure transition on
`AppState`.  External effects with no reflection in this state slice
(`recorderRef.current.requestData()` in the `start` case, the `setTimeout`
focus call in the final-complete case) are dropped.  Note there is no case for
the worker's `error` message: the JS switch falls through, leaving all state
untouched. -/
def onMessageReceived (a : AppState) : WMsg → AppState
  | .loading d => { a with status := some "loading", loadingMessage := d }
  | .initiate f p t => { a with progressItems := a.progressItems ++ [⟨f, p, t⟩] }
  | .progress f p t =>
      { a with progressItems := a.progressItems.map fun it =>
          if it.file == f then { it with progress := p, total := t } else it }
  | .done f => { a with progressItems := a.progressItems.filter fun it => it.file != f }
  | .ready => { a with status := some "ready" }
  | .start => { a with isProcessing := true }
  | .update _ tp _ => { a with tps := tp }
  | .complete out true =>
      { a with isProcessing := false
               processingFinalTranscript := false
               finalTranscript :=
                 if cleanOutput out = "" then a.finalTranscript
                 else a.finalTranscript ++
                   (if a.finalTranscript = "" then "" else " ") ++ cleanOutput out
               realtimeText := "" }
  | .complete out false =>
      { a with isProcessing := false, realtimeText := cleanOutput out }
  | .error _ => a

/-- Folding a worker message sequence over the app state. -/
def appRun (a : AppState) (ms : List WMsg) : AppState := ms.foldl onMessageReceived a

/-- The recorder `onstop` handler's state writes (App.jsx lines 189-199):
recording stops, realtime processing is disabled, the live text is cleared, and
when there are captured chunks the final-processing flag is raised.  The decode
and Final submission it also triggers are modelled on the worker side. -/
def recorderOnStop (a : AppState) (hasChunks : Bool) : AppState :=
  { a with recording := false
           allowRealtimeProcessing := false
           realtimeText := ""
           processingFinalTranscript := hasChunks }

/-- String append with the empty string on the left is the identity (used to
relate the code's `prev + (prev ? " " : "") + cleaned` to the spec's wording). -/
theorem empty_append_str (s : String) : "" ++ s = s := by
  cases s with
  | mk data => rfl

/-- C3: for every Final completion with output `t` over prior committed
transcript `c`: with `tc = cleanOutput t` (markers stripped, then trimmed), if
`tc` is empty the committed transcript is unchanged; otherwise it becomes `tc`
when `c` was empty, and `c ++ " " ++ tc` when `c` was non-empty. -/
theorem final_commit_semantics (a : AppState) (t : String) :
    (cleanOutput t = "" →
      (onMessageReceived a (.complete t true)).finalTranscript = a.finalTranscript) ∧
    (cleanOutput t ≠ "" →
      (onMessageReceived a (.complete t true)).finalTranscript =
        if a.finalTranscript = "" then cleanOutput t
        else a.finalTranscript ++ " " ++ cleanOutput t) := by
  constructor
  · intro h
    simp [onMessageReceived, h]
  · intro h
    by_cases hc : a.finalTranscript = ""
    · simp [onMessageReceived, h, hc, empty_append_str]
    · simp [onMessageReceived, h, hc]

/-- C3 witness: the spec's concrete example.  From an empty committed
transcript, the Final result `"  [BLANK_AUDIO] hello world  "` commits
`"hello world"`. -/
theorem final_commit_semantics_witness :
    cleanOutput "  [BLANK_AUDIO] hello world  " ≠ "" ∧
    (onMessageReceived initialApp (.complete "  [BLANK_AUDIO] hello world  " true)).finalTranscript
      = "hello world" :=
  ⟨by decide,
   ((final_commit_semantics initialApp "  [BLANK_AUDIO] hello world  ").2
      (by decide)).trans (by decide)⟩

/-! ## The single-flight inference gate (worker.js lines 44-117)

The worker's `generate` guards a module-level boolean `processing`
(worker.js line 44).  Its admission logic (lines 45-59):
* `processing && !isFinal` : return at once, posting nothing (lines 46-49);
* `processing && isFinal`  : poll every 50 ms until `processing` clears
  (lines 52-57), then proceed;
* then `processing = true` (line 59) and the request runs.

We model the asynchronous interleavings as an event trace over a gate state.
Ghost counters (in-flight per kind, arrived/admitted/waiting Finals, dropped
Realtimes) record what each transition does so the single-flight and
never-dropped invariants are statable. -/

/-- Gate state: the `processing` flag plus ghost counters instrumenting the
admission discipline. -/
structure GateState where
  busy : Bool
  inflightRT : Nat
  inflightF : Nat
  waitingF : Nat
  arrivedF : Nat
  admittedF : Nat
  droppedRT : Nat
deriving DecidableEq

/-- The gate before any request: `processing = false` (worker.js line 44). -/
def gInit : GateState :=
  { busy := false, inflightRT := 0, inflightF := 0, waitingF := 0
    arrivedF := 0, admittedF := 0, droppedRT := 0 }

/-- Scheduler-visible events at the gate: arrival of a Realtime request,
arrival of a Final request, completion of the in-flight computation
(`processing = false`, worker.js line 116), and a parked Final's poll loop
observing the clear flag and admitting itself (lines 54-57 then 59). -/
inductive GEvent where
  | arriveRT
  | arriveF
  | finish
  | wakeF
deriving DecidableEq

/-- One gate transition per event, from worker.js lines 44-59 and 116. -/
def gStep (s : GateState) : GEvent → GateState
  | .arriveRT =>
      if s.busy then { s with droppedRT := s.droppedRT + 1 }
      else { s with busy := true, inflightRT := s.inflightRT + 1 }
  | .arriveF =>
      if s.busy then { s with waitingF := s.waitingF + 1, arrivedF := s.arrivedF + 1 }
      else { s with busy := true, inflightF := s.inflightF + 1
                    arrivedF := s.arrivedF + 1, admittedF := s.admittedF + 1 }
  | .finish =>
      if s.busy then { s with busy := false, inflightRT := 0, inflightF := 0 } else s
  | .wakeF =>
      if s.busy = false ∧ 0 < s.waitingF then
        { s with busy := true, inflightF := s.inflightF + 1
                 waitingF := s.waitingF - 1, admittedF := s.admittedF + 1 }
      else s

/-- Running a trace of gate events. -/
def gRun (s : GateState) : List GEvent → GateState
  | [] => s
  | e :: es => gRun (gStep s e) es

/-- The inductive invariant of the gate: the number of in-flight computations
matches the busy flag (hence is at most one), and every Final that ever
arrived is accounted for as admitted or still waiting (none lost). -/
def gateInv (s : GateState) : Prop :=
  s.inflightRT + s.inflightF = (if s.busy then 1 else 0) ∧
  s.arrivedF = s.admittedF + s.waitingF

theorem gateInv_init : gateInv gInit := by
  constructor <;> rfl

theorem gateInv_step {s : GateState} (h : gateInv s) (e : GEvent) :
    gateInv (gStep s e) := by
  obtain ⟨h1, h2⟩ := h
  cases e <;> simp only [gStep, gateInv] <;> split <;>
    simp_all <;> omega

theorem gateInv_run {s : GateState} (h : gateInv s) (es : List GEvent) :
    gateInv (gRun s es) := by
  induction es generalizing s with
  | nil => exact h
  | cons e es ih => exact ih (gateInv_step h e)

/-- C1: along every event trace from the initial gate state, at most one
inference computation (Realtime or Final) is in flight, and every Final
request that arrived is either already admitted or still waiting behind the
in-flight computation — never silently dropped.  (Realtime arrivals while busy
only bump `droppedRT`; Final arrivals while busy move to `waitingF` and are
admitted by `wakeF` once the gate clears.) -/
theorem single_flight_gate (es : List GEvent) :
    (gRun gInit es).inflightRT + (gRun gInit es).inflightF ≤ 1 ∧
    (gRun gInit es).arrivedF = (gRun gInit es).admittedF + (gRun gInit es).waitingF := by
  have h := gateInv_run gateInv_init es
  obtain ⟨h1, h2⟩ := h
  refine ⟨?_, h2⟩
  rw [h1]
  split <;> omega

/-! ## One `generate` run and its messages

`generate` (worker.js lines 45-117), viewed per request: given the `processing`
flag at arrival, the request's finality, and the outcome of the awaited
inference (`Except.ok` with the decoded text, or `Except.error` when the
awaited `processor`/`model.generate` call throws), it yields the messages this
request posts and the final value of the `processing` flag.  The streamed
`update` messages a successful run emits through the `TextStreamer` callback
are modelled separately by `WMsg.update` / `onMessageReceived`; they do not
touch the `processing` flag.  Crucially, the body between `processing = true`
(line 59) and `processing = false` (line 116) has NO try/catch: an exception
escapes `generate` before line 116 runs, so the flag stays `true` and no
`complete` message is posted. -/
def generate (processing : Bool) (isFinal : Bool) (outcome : Except String String) :
    List WMsg × Bool :=
  if processing ∧ ¬isFinal then ([], processing)
  else
    match outcome with
    | .ok t => ([.start, .complete t isFinal], false)
    | .error _ => ([.start], true)

/-- The `generate` of the pipeline-based worker variant (src/unnamed/part_001
lines 29-115): identical admission, but the inference call is wrapped in
try/catch — on error it posts `complete` with empty output (lines 105-112) and
still reaches `processing = false` (line 114). -/
def generateP1 (processing : Bool) (isFinal : Bool) (outcome : Except String String) :
    List WMsg × Bool :=
  if processing ∧ ¬isFinal then ([], processing)
  else
    match outcome with
    | .ok t => ([.start, .complete t isFinal], false)
    | .error _ => ([.start, .complete "" isFinal], false)

/-- C2: evaluation at the failing input.  An admitted request whose inference
call throws leaves `processing = true` in src/worker.js — no `complete`
message is ever posted and every later Realtime request is rejected — whereas
a successful run clears the flag; the try/catch variant of the same function
in src/unnamed/part_001 clears the flag on error, as the spec demands. -/
theorem generate_error_leaves_busy :
    (generate false true (Except.error "boom")).2 = true ∧
    (generate false true (Except.error "boom")).1 = [WMsg.start] ∧
    (generate false false (Except.ok "t")).2 = false ∧
    (generate true false (Except.ok "t")) = ([], true) ∧
    (generateP1 false true (Except.error "boom")).2 = false := by
  decide

/-- C4: a Realtime request arriving while the gate is busy is discarded: the
`generate` call posts no message at all and leaves `processing` untouched, the
gate records it only as dropped (in-flight counts unchanged), and folding its
(empty) message output over any app state leaves the live transcript — indeed
the whole state — exactly as before. -/
theorem realtime_rejected_while_busy (s : GateState) (a : AppState)
    (outcome : Except String String) (h : s.busy = true) :
    generate s.busy false outcome = ([], s.busy) ∧
    gStep s .arriveRT = { s with droppedRT := s.droppedRT + 1 } ∧
    appRun a (generate s.busy false outcome).1 = a ∧
    (appRun a (generate s.busy false outcome).1).realtimeText = a.realtimeText := by
  rw [h]
  exact ⟨rfl, by simp [gStep, h], rfl, rfl⟩

/-- C4 witness: concrete busy gate, concrete outcome, initial app state. -/
theorem realtime_rejected_while_busy_witness :
    ({ gInit with busy := true } : GateState).busy = true ∧
    appRun initialApp
      (generate ({ gInit with busy := true } : GateState).busy false (Except.ok "x")).1
      = initialApp :=
  ⟨rfl, (realtime_rejected_while_busy { gInit with busy := true } initialApp
          (Except.ok "x") rfl).2.2.1⟩

/-! ## Partial-text (`update`) events and live-text updates -/

/-- C5 counterexample: a `PartialText` (wire tag `update`) event does NOT
replace the live transcript with its text.  With live text `"abc"` and an
update event carrying `"xyz"`, the live transcript stays `"abc"` — the
`update` case of `onMessageReceived` (App.jsx lines 100-106) only stores the
tokens-per-second value and never touches `realtimeText`. -/
theorem update_does_not_set_live :
    (onMessageReceived { initialApp with realtimeText := "abc", recording := true }
        (.update "xyz" (some 3) 2)).realtimeText = "abc" ∧ ("abc" : String) ≠ "xyz" := by
  decide

/-- C5 (amended): an `update` event changes exactly the tokens-per-second
field; the live transcript (and everything else) is left unchanged.  The live
transcript is instead replaced wholesale by Realtime `complete` events. -/
theorem update_sets_only_tps (a : AppState) (out : String) (tp : Option Nat) (n : Nat) :
    onMessageReceived a (.update out tp n) = { a with tps := tp } := by
  rfl

/-- C10: every Realtime (non-final) completion replaces the live transcript
wholesale with the event's output cleaned by exactly the same `cleanOutput`
(strip `[BLANK_AUDIO]`, then trim) the Final commit path uses (App.jsx
line 130 versus line 115). -/
theorem realtime_complete_sets_cleaned_live (a : AppState) (t : String) :
    (onMessageReceived a (.complete t false)).realtimeText = cleanOutput t := by
  rfl

/-! ## Stale Realtime completions after stop (C6) -/

/-- C6 counterexample: there is no request-generation matching.  After
stop-capture (`recorderOnStop` has cleared the live text and moved the session
into final processing), a stale Realtime completion is handled like any other:
it overwrites the live transcript with its cleaned output instead of being
discarded. -/
theorem stale_realtime_not_discarded :
    (onMessageReceived
        (recorderOnStop { initialApp with recording := true, realtimeText := "old" } true)
        (.complete "hi" false)).realtimeText ≠
      (recorderOnStop { initialApp with recording := true, realtimeText := "old" } true
        ).realtimeText := by
  decide

/-- C6 (amended): a Realtime completion event is processed identically in
every app state — stop-capture or not, there is no generation matching: it
clears the processing flag and overwrites the live transcript with the cleaned
output; only the committed transcript is never altered by it. -/
theorem stale_realtime_complete_effect (a : AppState) (t : String) :
    onMessageReceived a (.complete t false) =
      { a with isProcessing := false, realtimeText := cleanOutput t } := by
  rfl

/-! ## Realtime windowing (App.jsx lines 8-10 and 251-266) -/

/-- Whisper's fixed sample rate (App.jsx line 8). -/
def WHISPER_SAMPLING_RATE : Nat := 16000

/-- Maximum streaming window duration in seconds (App.jsx line 9). -/
def MAX_AUDIO_LENGTH : Nat := 30

/-- Maximum streaming window in samples (App.jsx line 10): 480 000. -/
def MAX_SAMPLES : Nat := WHISPER_SAMPLING_RATE * MAX_AUDIO_LENGTH

/-- The windowing step of the realtime submission effect (App.jsx lines
255-259): `if (audio.length > MAX_SAMPLES) audio = audio.slice(-MAX_SAMPLES)`.
For a list longer than `MAX_SAMPLES`, JS `slice(-n)` is `drop (length - n)`. -/
def realtimeWindow (audio : List Int) : List Int :=
  if audio.length > MAX_SAMPLES then audio.drop (audio.length - MAX_SAMPLES) else audio

/-- C7: when the decode exceeds 480 000 samples the submitted window is exactly
the last 480 000 samples — the `drop (length - 480000)` slice of the full
decode, of length exactly 480 000 — and when the decode is at most 480 000
samples it is submitted unchanged. -/
theorem realtime_window_spec (audio : List Int) :
    (audio.length > MAX_SAMPLES →
      realtimeWindow audio = audio.drop (audio.length - MAX_SAMPLES) ∧
      (realtimeWindow audio).length = MAX_SAMPLES) ∧
    (audio.length ≤ MAX_SAMPLES → realtimeWindow audio = audio) := by
  constructor
  · intro h
    refine ⟨by simp [realtimeWindow, h], ?_⟩
    simp [realtimeWindow, h, List.length_drop]
    omega
  · intro h
    simp [realtimeWindow, Nat.not_lt.mpr h]

/-- C7 witness: a decode of 480 001 samples windows to its last 480 000
samples, i.e. drops exactly its first sample. -/
theorem realtime_window_spec_witness :
    (List.replicate (MAX_SAMPLES + 1) (0 : Int)).length > MAX_SAMPLES ∧
    (realtimeWindow (List.replicate (MAX_SAMPLES + 1) (0 : Int))).length = MAX_SAMPLES :=
  ⟨by simp, ((realtime_window_spec (List.replicate (MAX_SAMPLES + 1) (0 : Int))).1
      (by simp)).2⟩

/-! ## Engine errors (C8)

`load` in worker.js (lines 119-153) wraps the pipeline load and warm-up in a
try/catch; the catch posts a single `error` message carrying
`"Failed to load model: " ++ error.message` (lines 148-151). -/

/-- Messages posted by worker.js `load` (lines 119-153), with the awaited
pipeline load and warm-up inside the try block abstracted as an
`Except String Unit` outcome. -/
def load (res : Except String Unit) : List WMsg :=
  match res with
  | .ok _ => [.loading "Loading model...",
              .loading "Compiling shaders and warming up model...",
              .ready]
  | .error m => [.loading "Loading model...", .error ("Failed to load model: " ++ m)]

/-- C8 counterexample: the orchestrator does not transition to an Error state.
With the app in the loading state, delivering the worker's error event leaves
the state bit-for-bit unchanged — the status stays `"loading"` and the message
is stored nowhere, because `onMessageReceived` has no `error` case at all. -/
theorem engine_error_ignored_by_app :
    onMessageReceived { initialApp with status := some "loading" }
        (.error "Failed to load model: boom") =
      { initialApp with status := some "loading" } := by
  decide

/-- C8 (amended): on a failed load the inference context does emit an
`EngineError` event carrying the human-readable message, but the orchestrator
ignores it: its handler is the identity on every `error` event, so no Error
state is entered and the message is never surfaced. -/
theorem engine_error_emitted_but_ignored (m d : String) (a : AppState) :
    load (Except.error m) =
      [.loading "Loading model...", .error ("Failed to load model: " ++ m)] ∧
    onMessageReceived a (.error d) = a := by
  exact ⟨rfl, rfl⟩

/-! ## Idempotent model loading (worker.js lines 14-41)

`AutomaticSpeechRecognitionPipeline.getInstance` lazily initialises three
static fields with `??=`.  The `??=` assigns the *pending promise*
synchronously, so a second call — even one arriving before the first load has
completed — finds every field non-null and triggers no further underlying
load.  The `Option Unit` fields model null/promise; the counters are ghosts
counting the underlying `from_pretrained` calls. -/

/-- State of the singleton pipeline class (worker.js lines 14-18) plus ghost
load counters. -/
structure PipeState where
  tokenizer : Option Unit
  processor : Option Unit
  model : Option Unit
  tokenizerLoads : Nat
  processorLoads : Nat
  modelLoads : Nat
deriving DecidableEq

/-- All static fields start null (worker.js lines 16-18). -/
def pipeInit : PipeState :=
  { tokenizer := none, processor := none, model := none
    tokenizerLoads := 0, processorLoads := 0, modelLoads := 0 }

/-- `getInstance` (worker.js lines 20-41): each `??=` starts an underlying
load only when its field is still null, and stores the promise immediately. -/
def getInstance (s : PipeState) : PipeState :=
  let s1 := if s.tokenizer.isNone then
      { s with tokenizer := some (), tokenizerLoads := s.tokenizerLoads + 1 } else s
  let s2 := if s1.processor.isNone then
      { s1 with processor := some (), processorLoads := s1.processorLoads + 1 } else s1
  if s2.model.isNone then
    { s2 with model := some (), modelLoads := s2.modelLoads + 1 } else s2

/-- C9: `getInstance` is idempotent — a second call in any state (in
particular one issued before the first load completes, since the promise is
cached synchronously) changes nothing — and from the initial state two
consecutive load commands trigger exactly one underlying model load. -/
theorem getInstance_idempotent :
    (∀ s : PipeState, getInstance (getInstance s) = getInstance s) ∧
    (getInstance (getInstance pipeInit)).modelLoads = 1 ∧
    (getInstance (getInstance pipeInit)).tokenizerLoads = 1 ∧
    (getInstance (getInstance pipeInit)).processorLoads = 1 := by
  refine ⟨?_, by decide, by decide, by decide⟩
  intro s
  obtain ⟨t, p, m, tl, pl, ml⟩ := s
  cases t <;> cases p <;> cases m <;> simp [getInstance]

end LocalTranscription
